import Mathlib

/-!
Verification of the audio capture and level-monitoring subsystem of the
summary-buddy recorder.

The embedding models, from the sources:
- CoreAudioRecorder (src/main/audio/coreaudio.ts): the recording state
  machine (startRecording, stopRecording, getAudioLevel,
  getCurrentRecordingPath), the segment-rotation size-check callback, and
  the capture-process exit handler.  Child processes are modelled by
  process ids drawn from an allocator, with a list of live pids; timer and
  subprocess callbacks are explicit events (sizeTick, rotationComplete,
  onCaptureExit) delivered to the state.
- RecordingMetadataStore (RecordingMetadata.ts): the path to start-time
  map with its fallback-to-now lookup.  The JavaScript expression
  get(path) || Date.now() treats a stored 0 as missing; the model keeps
  that behaviour.
- The start-recording and stop-recording IPC handlers (src/main/main.ts):
  composed over the recorder, the store and a file-system model.
- updateRecordingMetadata (main.ts variant with the full metadata record):
  the read-modify-write merge of piecewise metadata updates.
- The PCM frame analyzer of startMonitoring (coreaudio.ts): root mean
  square of a window of 16-bit samples, normalised, gain-scaled by 30 and
  clamped to [0,1].  Real-number arithmetic stands in for floating point.
-/

namespace SummaryBuddy

/-- State of one CoreAudioRecorder object: the fields of the class.
Child processes are identified by pids; the float lastLevel is modelled
as a rational. -/
structure RecState where
  isRecording : Bool
  currentProcess : Option Nat
  monitorProcess : Option Nat
  lastLevel : ℚ
  currentRecordingPath : String
  deriving Repr, DecidableEq

/-- A fresh CoreAudioRecorder, as built by the constructor and field
initialisers. -/
def initialRecState : RecState :=
  { isRecording := false, currentProcess := none, monitorProcess := none
    lastLevel := 0, currentRecordingPath := "" }

/-- The recorder object together with its environment: the set of live
child process pids, the pid allocator, and whether the sox executable
resolves (the precondition checked by which sox). -/
structure World where
  recorder : RecState
  alive : List Nat
  nextPid : Nat
  soxInstalled : Bool
  deriving Repr, DecidableEq

/-- The error message of the sox precondition failure. -/
def soxMissingMsg : String :=
  "Sox is not installed. Please run yarn install to install required dependencies."

/-- Result of running startRecording on a recorder object: the new object
state, the pids spawned, the advanced allocator and the returned error. -/
structure StartResult where
  recorder : RecState
  spawned : List Nat
  next : Nat
  err : Option String
  deriving Repr, DecidableEq

/-- Embeds CoreAudioRecorder.startRecording on one recorder object (coreaudio.ts
lines 77 to 153): reject when already recording, fail when sox is missing,
otherwise set isRecording and the current path, spawn the monitor process
(startMonitoring) and then the capture process. -/
def startRecordingRec (sox : Bool) (nextPid : Nat) (r : RecState)
    (outputPath : String) : StartResult :=
  if r.isRecording then
    ⟨r, [], nextPid, some "Already recording"⟩
  else if sox = false then
    ⟨r, [], nextPid, some soxMissingMsg⟩
  else
    let monPid := nextPid
    let capPid := nextPid + 1
    ⟨{ isRecording := true, currentProcess := some capPid
       monitorProcess := some monPid, lastLevel := r.lastLevel
       currentRecordingPath := outputPath },
      [monPid, capPid], nextPid + 2, none⟩

/-- startRecording of the controller-facing recorder, acting on the whole
world. -/
def startRecording (w : World) (outputPath : String) : World × Option String :=
  let res := startRecordingRec w.soxInstalled w.nextPid w.recorder outputPath
  ({ w with recorder := res.recorder, alive := res.spawned ++ w.alive, nextPid := res.next },
    res.err)

/-- Embeds CoreAudioRecorder.stopRecording on one recorder object (coreaudio.ts
lines 228 to 252): reject when not recording, otherwise kill the capture
and monitor processes, clear the flag, zero the level and clear the
current path. -/
def stopRecordingRec (r : RecState) (alive : List Nat) :
    RecState × List Nat × Option String :=
  if r.isRecording = false then
    (r, alive, some "Not recording")
  else
    let a1 := match r.currentProcess with
      | some p => alive.erase p
      | none => alive
    let a2 := match r.monitorProcess with
      | some p => a1.erase p
      | none => a1
    ({ isRecording := false, currentProcess := none, monitorProcess := none
       lastLevel := 0, currentRecordingPath := "" }, a2, none)

/-- stopRecording of the controller-facing recorder, acting on the whole
world. -/
def stopRecording (w : World) : World × Option String :=
  let res := stopRecordingRec w.recorder w.alive
  ({ w with recorder := res.1, alive := res.2.1 }, res.2.2)

/-- Embeds CoreAudioRecorder.getAudioLevel (coreaudio.ts lines 254 to 260):
return 0 when not recording, otherwise the clamped last level with a
noise floor of 0.005. -/
def getAudioLevel (w : World) : ℚ :=
  if w.recorder.isRecording = false then 0
  else
    let level := min 1 (max 0 w.recorder.lastLevel)
    if 1 / 200 < level then level else 0

/-- Embeds CoreAudioRecorder.getCurrentRecordingPath (coreaudio.ts lines 262 to
264). -/
def getCurrentRecordingPath (w : World) : String :=
  w.recorder.currentRecordingPath

/-- The suffix matched by the regular expressions of coreaudio.ts. -/
def mp3Suffix : String := ".mp3"

/-- Embeds the replace call of currentPath with the anchored dot mp3
pattern and the empty replacement (coreaudio.ts line 113): drop a trailing .mp3 when present. -/
def stripMp3 (s : String) : String :=
  if mp3Suffix.data.isSuffixOf s.data then
    String.mk (s.data.take (s.data.length - 4))
  else s

/-- Embeds the replace call of currentRecordingPath with the anchored dot
mp3 pattern and the underscore recovered dot mp3 replacement (coreaudio.ts lines 137 to 140). -/
def recoveredPath (s : String) : String :=
  if mp3Suffix.data.isSuffixOf s.data then
    String.mk (s.data.take (s.data.length - 4)) ++ "_recovered.mp3"
  else s

/-- The data produced by one firing of the size-check callback when the
threshold is crossed: the freshly started replacement recorder and the new
segment path, held until the 500ms overlap timeout fires. -/
structure RotationPending where
  newRec : RecState
  newPath : String
  deriving Repr, DecidableEq

/-- One firing of the sizeCheckInterval callback (coreaudio.ts lines 105
to 132) observing a file of sizeBytes at timestamp ts: when the size in
megabytes exceeds 25, derive the timestamp-suffixed segment path from the
current path, start a new CoreAudioRecorder on it, and schedule the
overlap timeout, returning its payload. -/
def sizeTick (w : World) (sizeBytes : Nat) (ts : Nat) :
    World × Option RotationPending :=
  let sizeMB : ℚ := (sizeBytes : ℚ) / (1024 * 1024)
  if 25 < sizeMB then
    let currentPath := w.recorder.currentRecordingPath
    let basePath := stripMp3 currentPath
    let newPath := basePath ++ "_" ++ toString ts ++ ".mp3"
    let res := startRecordingRec w.soxInstalled w.nextPid initialRecState newPath
    ({ w with alive := res.spawned ++ w.alive, nextPid := res.next },
      some ⟨res.recorder, newPath⟩)
  else (w, none)

/-- The 500ms overlap timeout scheduled by the size-check callback
(coreaudio.ts lines 122 to 127): stop the current recording, then adopt
the replacement recorder processes and switch the current path to the new
segment. -/
def rotationComplete (w : World) (pd : RotationPending) : World :=
  let res := stopRecordingRec w.recorder w.alive
  { w with
    recorder := { res.1 with
      currentProcess := pd.newRec.currentProcess
      monitorProcess := pd.newRec.monitorProcess
      currentRecordingPath := pd.newPath }
    alive := res.2.1 }

/-- The exit handler installed on the capture process (coreaudio.ts lines
134 to 143), fired when the process dies with the given code: the pid is
gone, and when the code is nonzero while the session is still flagged
recording, startRecording is called on the recovered path. -/
def onCaptureExit (w : World) (code : Int) : World × Option String :=
  let w1 := match w.recorder.currentProcess with
    | some p => { w with alive := w.alive.erase p }
    | none => w
  if code ≠ 0 ∧ w1.recorder.isRecording then
    startRecording w1 (recoveredPath w1.recorder.currentRecordingPath)
  else (w1, none)

/-- Embeds RecordingMetadataStore.startRecording (RecordingMetadata.ts): record
the start instant of the path in the process-wide map. -/
def storeStartRecording (st : List (String × Nat)) (p : String) (now : Nat) :
    List (String × Nat) :=
  (p, now) :: st

/-- Embeds RecordingMetadataStore.getStartTime (RecordingMetadata.ts lines 1142
to 1144): the stored start time of the path, falling back to now when the
path is unknown; the JavaScript or-else also treats a stored 0 as
missing. -/
def getStartTime (st : List (String × Nat)) (p : String) (now : Nat) : Nat :=
  match st.lookup p with
  | some t => if t = 0 then now else t
  | none => now

/-- Outcome of the stop-recording IPC handler: the error branch, the
zero-duration early return after a successful delete, or the normal flow
that writes a metadata file and reports the duration. -/
inductive StopOutcome where
  | failed (msg : String)
  | discarded (duration : Nat)
  | stopped (duration : Nat)
  deriving Repr, DecidableEq

/-- The state touched by the IPC handlers of main.ts: the recorder world,
the start-time store, the set of files on disk, and the metadata files
written on stop with their recorded duration. -/
structure MainState where
  world : World
  store : List (String × Nat)
  fs : List String
  metas : List (String × Nat)
  deriving Repr, DecidableEq

/-- The initial process state: fresh recorder, empty store, empty disk,
sox installed. -/
def initMainState : MainState :=
  { world := { recorder := initialRecState, alive := [], nextPid := 0, soxInstalled := true }
    store := [], fs := [], metas := [] }

/-- The start-recording IPC handler (main.ts lines 386 to 445) for output
path outputPath at wall-clock now: register the start time in the store,
then start the recorder; on success the capture file appears on disk. -/
def startHandler (s : MainState) (outputPath : String) (now : Nat) :
    MainState × Option String :=
  let store2 := storeStartRecording s.store outputPath now
  let res := startRecording s.world outputPath
  match res.2 with
  | some e => ({ s with store := store2, world := res.1 }, some e)
  | none => ({ s with store := store2, world := res.1, fs := outputPath :: s.fs }, none)

/-- The stop-recording IPC handler (main.ts lines 486 to 537) at
wall-clock now: stop the recorder, then read the current recording path
from it, compute the duration from the store, delete the recording when
the duration is 0 and the delete succeeds, otherwise write the duration
metadata file and report the duration. -/
def stopHandler (s : MainState) (now : Nat) : MainState × StopOutcome :=
  let res := stopRecording s.world
  match res.2 with
  | some e => ({ s with world := res.1 }, StopOutcome.failed e)
  | none =>
    let recordingPath := getCurrentRecordingPath res.1
    let duration := (now - getStartTime s.store recordingPath now) / 1000
    if duration = 0 then
      if recordingPath ∈ s.fs then
        ({ s with world := res.1, fs := s.fs.erase recordingPath },
          StopOutcome.discarded 0)
      else
        ({ s with world := res.1,
                  metas := (recordingPath ++ ".meta", duration) :: s.metas },
          StopOutcome.stopped duration)
    else
      ({ s with world := res.1,
                metas := (recordingPath ++ ".meta", duration) :: s.metas },
        StopOutcome.stopped duration)

/-- The persisted metadata record of a recording (main.ts type
RecordingMetadata): every field optional, since a JSON record on disk may
hold any subset. -/
structure RecordingMetadata where
  title : Option String
  duration : Option Nat
  transcriptionId : Option String
  lastModified : Option String
  startTime : Option String
  endTime : Option String
  isActive : Option Bool
  deriving Repr, DecidableEq

/-- One field of the JavaScript object spread: a key present in the
update wins, an absent key keeps the existing value. -/
def mergeField {α : Type} (update existing : Option α) : Option α :=
  match update with
  | some v => some v
  | none => existing

/-- Embeds updateRecordingMetadata (main.ts lines 842 to 874): read the existing
record, spread the updates over it, and stamp lastModified with the
current time; the same merge shape is used by
RecordingMetadataStore.updateMetadata. -/
def updateRecordingMetadata (existing updates : RecordingMetadata)
    (now : String) : RecordingMetadata :=
  { title := mergeField updates.title existing.title
    duration := mergeField updates.duration existing.duration
    transcriptionId := mergeField updates.transcriptionId existing.transcriptionId
    startTime := mergeField updates.startTime existing.startTime
    endTime := mergeField updates.endTime existing.endTime
    isActive := mergeField updates.isActive existing.isActive
    lastModified := some now }

/-- Root mean square of a window of 16-bit samples (coreaudio.ts lines
193 to 198): normalise each sample by 32768, square, average, square
root. -/
noncomputable def rmsOfWindow (samples : List ℤ) : ℝ :=
  Real.sqrt (((samples.map fun s : ℤ => ((s : ℝ) / 32768) ^ 2).sum) / samples.length)

/-- The normalised loudness of a window (coreaudio.ts line 201): the root
mean square scaled by the gain 30 and clamped to at most 1. -/
noncomputable def normalizedLevel (samples : List ℤ) : ℝ :=
  min 1 (rmsOfWindow samples * 30)

/-- A recorder world in the middle of a session: capture pid 1, monitor
pid 0, a nonzero smoothed level, recording into rec-0.mp3. -/
def sampleWorld : World :=
  { recorder := { isRecording := true, currentProcess := some 1,
                  monitorProcess := some 0, lastLevel := 1 / 2,
                  currentRecordingPath := "rec-0.mp3" },
    alive := [0, 1], nextPid := 2, soxInstalled := true }

/-- An idle recorder world that still holds a stale nonzero level. -/
def sampleIdle : World :=
  { recorder := { isRecording := false, currentProcess := none,
                  monitorProcess := none, lastLevel := 3 / 4,
                  currentRecordingPath := "" },
    alive := [], nextPid := 5, soxInstalled := true }

/-- A persisted metadata record with a user-edited title. -/
def sampleMeta : RecordingMetadata :=
  { title := some "My meeting notes", duration := some 10
    transcriptionId := none, lastModified := some "t0"
    startTime := some "t0", endTime := none, isActive := some true }

/-- An update naming only the duration field. -/
def sampleUpdates : RecordingMetadata :=
  { title := none, duration := some 5, transcriptionId := none
    lastModified := none, startTime := none, endTime := none, isActive := none }

/-- Claim C4: in every state in which no session is recording, and in
particular immediately after stopRecording, getAudioLevel returns exactly
0, never a stale value. -/
theorem claim_C4_idle_level_zero (w : World) :
    (w.recorder.isRecording = false → getAudioLevel w = 0) ∧
    getAudioLevel (stopRecording w).1 = 0 := by
  constructor
  · intro h
    simp [getAudioLevel, h]
  · by_cases h : w.recorder.isRecording = false
    · simp [stopRecording, stopRecordingRec, getAudioLevel, h]
    · simp [stopRecording, stopRecordingRec, getAudioLevel, h]

/-- Witness for claim C4 at a concrete idle world with a stale nonzero
stored level, and at a concrete recording world that is stopped. -/
theorem claim_C4_witness :
    sampleIdle.recorder.lastLevel = 3 / 4 ∧
    getAudioLevel sampleIdle = 0 ∧
    getAudioLevel (stopRecording sampleWorld).1 = 0 :=
  ⟨rfl, (claim_C4_idle_level_zero sampleIdle).1 rfl,
    (claim_C4_idle_level_zero sampleWorld).2⟩

/-- Claim C6: startRecording during an active session returns the
already-recording error and leaves the entire recorder state, in
particular the current output path, unchanged. -/
theorem claim_C6_already_recording (w : World) (p : String)
    (h : w.recorder.isRecording = true) :
    startRecording w p = (w, some "Already recording") := by
  simp [startRecording, startRecordingRec, h]

/-- Witness for claim C6: a second start on the sample recording world is
rejected with the world unchanged. -/
theorem claim_C6_witness :
    startRecording sampleWorld "other.mp3" = (sampleWorld, some "Already recording") :=
  claim_C6_already_recording sampleWorld "other.mp3" rfl

/-- Claim C9: stopRecording when nothing records returns the
not-recording error without touching the state, and stop is idempotent:
a second consecutive stop also returns the error and leaves the state of
the first stop unchanged. -/
theorem claim_C9_stop_idempotent (w : World) :
    (w.recorder.isRecording = false → stopRecording w = (w, some "Not recording")) ∧
    stopRecording (stopRecording w).1 = ((stopRecording w).1, some "Not recording") := by
  constructor
  · intro h
    simp [stopRecording, stopRecordingRec, h]
  · by_cases h : w.recorder.isRecording = false
    · simp [stopRecording, stopRecordingRec, h]
    · simp [stopRecording, stopRecordingRec, h]

/-- Witness for claim C9 at the concrete idle world and after stopping
the concrete recording world. -/
theorem claim_C9_witness :
    stopRecording sampleIdle = (sampleIdle, some "Not recording") ∧
    stopRecording (stopRecording sampleWorld).1 =
      ((stopRecording sampleWorld).1, some "Not recording") :=
  ⟨(claim_C9_stop_idempotent sampleIdle).1 rfl,
    (claim_C9_stop_idempotent sampleWorld).2⟩

/-- Claim C10: after every successful stopRecording the current recording
path reads back as the empty string, so a caller reading the path after
stopping, as the stop IPC handler does, observes the empty string. -/
theorem claim_C10_stop_clears_path (w : World)
    (h : w.recorder.isRecording = true) :
    (stopRecording w).2 = none ∧
    getCurrentRecordingPath (stopRecording w).1 = "" := by
  simp [stopRecording, stopRecordingRec, getCurrentRecordingPath, h]

/-- Witness for claim C10: stopping the sample recording world, whose
path was rec-0.mp3, succeeds and leaves the empty path. -/
theorem claim_C10_witness :
    getCurrentRecordingPath sampleWorld = "rec-0.mp3" ∧
    (stopRecording sampleWorld).2 = none ∧
    getCurrentRecordingPath (stopRecording sampleWorld).1 = "" :=
  ⟨rfl, (claim_C10_stop_clears_path sampleWorld rfl).1,
    (claim_C10_stop_clears_path sampleWorld rfl).2⟩

/-- Claim C1, evaluated at its failing input: a session started at 1000ms
into rec-0.mp3 and stopped at 41000ms is reported with duration 0 by the
stop handler, because the handler reads the current recording path after
stopRecording has already cleared it, so the start-time index is
consulted with the empty string and falls back to now; the duration the
claim requires, computed from the original start instant stored in the
index, is 40 seconds. -/
theorem claim_C1_duration_from_cleared_path :
    (stopHandler ((startHandler initMainState "rec-0.mp3" 1000).1) 41000).2 =
      StopOutcome.stopped 0 ∧
    (41000 - getStartTime ((startHandler initMainState "rec-0.mp3" 1000).1).store
        "rec-0.mp3" 41000) / 1000 = 40 := by
  decide

/-- Claim C5, evaluated at its failing input: a session started at 1000ms
and stopped at 1400ms measures duration 0, but the delete targets the
already-cleared empty path and fails, so the handler falls through to the
normal flow: the outcome is a plain stop with duration 0, and the
recorded file rec-0.mp3 is kept on disk instead of being discarded. -/
theorem claim_C5_zero_duration_artifact_kept :
    (stopHandler ((startHandler initMainState "rec-0.mp3" 1000).1) 1400).2 =
      StopOutcome.stopped 0 ∧
    "rec-0.mp3" ∈ (stopHandler ((startHandler initMainState "rec-0.mp3" 1000).1) 1400).1.fs := by
  decide

/-- Claim C2: the capture-process exit handler, fired with a nonzero code
while the session is still flagged recording, calls startRecording on the
recovered path, but that call is rejected by the already-recording guard
of the very recorder it runs on: the recorder state is unchanged, no new
process is spawned, and the call returns the already-recording error, so
no recovery into a recovered-suffixed file ever happens and no fatal
error or forced idle state exists for a second exit. -/
theorem claim_C2_recovery_self_rejected (w : World) (code : Int)
    (hrec : w.recorder.isRecording = true) (hcode : code ≠ 0) :
    (onCaptureExit w code).1.recorder = w.recorder ∧
    (onCaptureExit w code).1.nextPid = w.nextPid ∧
    (onCaptureExit w code).2 = some "Already recording" := by
  unfold onCaptureExit
  cases hcp : w.recorder.currentProcess with
  | none => simp [hcp, hcode, hrec, startRecording, startRecordingRec]
  | some p => simp [hcp, hcode, hrec, startRecording, startRecordingRec]

/-- Witness for claim C2: an abnormal exit with code 1 on the sample
recording world changes nothing and yields the already-recording error. -/
theorem claim_C2_witness :
    (onCaptureExit sampleWorld 1).1.recorder = sampleWorld.recorder ∧
    (onCaptureExit sampleWorld 1).1.nextPid = sampleWorld.nextPid ∧
    (onCaptureExit sampleWorld 1).2 = some "Already recording" :=
  claim_C2_recovery_self_rejected sampleWorld 1 rfl (by decide)

/-- Claim C7, counterexample: the update naming only the duration leaves
lastModified unnamed, yet the written record carries a fresh
lastModified, so not every field absent from the update keeps its
previous value. -/
theorem claim_C7_counterexample :
    sampleUpdates.lastModified = none ∧
    (updateRecordingMetadata sampleMeta sampleUpdates "t1").lastModified ≠
      sampleMeta.lastModified := by
  decide

/-- Claim C7 as amended: the metadata update is a read-modify-write
merge; every field other than lastModified that is not named in the
update keeps its previous value (in particular a user-edited title),
every field named in the update takes the updated value, and
lastModified is always refreshed to the time of the write. -/
theorem claim_C7_merge_preserves_unnamed (ex up : RecordingMetadata) (now : String) :
    (up.title = none → (updateRecordingMetadata ex up now).title = ex.title) ∧
    (up.duration = none → (updateRecordingMetadata ex up now).duration = ex.duration) ∧
    (up.transcriptionId = none →
      (updateRecordingMetadata ex up now).transcriptionId = ex.transcriptionId) ∧
    (up.startTime = none → (updateRecordingMetadata ex up now).startTime = ex.startTime) ∧
    (up.endTime = none → (updateRecordingMetadata ex up now).endTime = ex.endTime) ∧
    (up.isActive = none → (updateRecordingMetadata ex up now).isActive = ex.isActive) ∧
    (∀ v, up.title = some v → (updateRecordingMetadata ex up now).title = some v) ∧
    (∀ v, up.duration = some v → (updateRecordingMetadata ex up now).duration = some v) ∧
    (updateRecordingMetadata ex up now).lastModified = some now := by
  refine ⟨fun h => ?_, fun h => ?_, fun h => ?_, fun h => ?_, fun h => ?_, fun h => ?_,
    fun v h => ?_, fun v h => ?_, rfl⟩ <;>
  simp [updateRecordingMetadata, mergeField, h]

/-- Witness for claim C7 as amended: merging the duration-only update
into the sample record keeps the user-edited title, takes the new
duration and stamps lastModified. -/
theorem claim_C7_witness :
    (updateRecordingMetadata sampleMeta sampleUpdates "t1").title = sampleMeta.title ∧
    (updateRecordingMetadata sampleMeta sampleUpdates "t1").duration = some 5 ∧
    (updateRecordingMetadata sampleMeta sampleUpdates "t1").lastModified = some "t1" :=
  ⟨(claim_C7_merge_preserves_unnamed sampleMeta sampleUpdates "t1").1 rfl,
    (claim_C7_merge_preserves_unnamed sampleMeta sampleUpdates "t1").2.2.2.2.2.2.2.1 5 rfl,
    (claim_C7_merge_preserves_unnamed sampleMeta sampleUpdates "t1").2.2.2.2.2.2.2.2⟩

/-- Claim C8: for a nonempty window of 16-bit samples the normalised
loudness lies in the unit interval, and an all-zero window yields exactly
0. -/
theorem claim_C8_level_in_unit_interval (samples : List ℤ)
    (hne : samples ≠ [])
    (hrange : ∀ s ∈ samples, -32768 ≤ s ∧ s ≤ 32767) :
    0 ≤ normalizedLevel samples ∧ normalizedLevel samples ≤ 1 ∧
    ((∀ s ∈ samples, s = 0) → normalizedLevel samples = 0) := by
  refine ⟨?_, ?_, ?_⟩
  · exact le_min zero_le_one (mul_nonneg (Real.sqrt_nonneg _) (by norm_num))
  · exact min_le_left _ _
  · intro hz
    have hsum : (samples.map fun s : ℤ => ((s : ℝ) / 32768) ^ 2).sum = 0 := by
      have hmap : samples.map (fun s : ℤ => ((s : ℝ) / 32768) ^ 2)
          = samples.map (fun _ : ℤ => (0 : ℝ)) := by
        apply List.map_congr_left
        intro t ht
        rw [hz t ht]
        norm_num
      rw [hmap]
      simp
    unfold normalizedLevel rmsOfWindow
    rw [hsum, zero_div, Real.sqrt_zero, zero_mul]
    exact min_eq_right zero_le_one

/-- Witness for claim C8 at the all-zero window of three samples. -/
theorem claim_C8_witness :
    0 ≤ normalizedLevel [0, 0, 0] ∧ normalizedLevel [0, 0, 0] ≤ 1 ∧
    normalizedLevel [0, 0, 0] = 0 :=
  have t := claim_C8_level_in_unit_interval [0, 0, 0] (by decide) (by decide)
  ⟨t.1, t.2.1, t.2.2 (by decide)⟩

/-- The rotated segment path is never equal to the path it is derived
from: appending the underscore, the timestamp and the extension makes it
strictly longer. -/
theorem newSegmentPath_ne (p : String) (ts : Nat) :
    stripMp3 p ++ "_" ++ toString ts ++ ".mp3" ≠ p := by
  intro h
  have hlen := congrArg String.length h
  rw [String.length_append, String.length_append, String.length_append] at hlen
  have h1 : ("_" : String).length = 1 := rfl
  have h4 : ((".mp3" : String)).length = 4 := rfl
  have hp : p.length = p.data.length := rfl
  by_cases hs : mp3Suffix.data.isSuffixOf p.data = true
  · have hsuf : 4 ≤ p.data.length := by
      have hl := (List.isSuffixOf_iff_suffix.mp hs).length_le
      simpa [mp3Suffix] using hl
    have hstrip : (stripMp3 p).length = p.data.length - 4 := by
      simp only [stripMp3, hs, if_true]
      show (String.mk (p.data.take (p.data.length - 4))).length = p.data.length - 4
      show (p.data.take (p.data.length - 4)).length = p.data.length - 4
      rw [List.length_take]
      omega
    omega
  · have hstrip : stripMp3 p = p := by simp [stripMp3, hs]
    rw [hstrip] at hlen
    omega

/-- Claim C3: when the size check observes the output file past the 25MB
threshold, the replacement capture process is started by the tick itself,
while the old capture process is still alive and the reported path is
still the old one; only the later overlap timeout stops the old process
and switches the reported path, so the old process is stopped strictly
after the new one started, and across the crossing the reported current
path changes exactly once, from the old path to the timestamp-suffixed
segment path. -/
theorem claim_C3_rotation_handoff (w : World) (size ts oldCap oldMon : Nat)
    (hrec : w.recorder.isRecording = true)
    (hsox : w.soxInstalled = true)
    (hsize : (25 : ℚ) < (size : ℚ) / (1024 * 1024))
    (hcap : w.recorder.currentProcess = some oldCap)
    (hmon : w.recorder.monitorProcess = some oldMon)
    (hcapb : oldCap < w.nextPid)
    (hmonb : oldMon < w.nextPid)
    (hbound : ∀ q ∈ w.alive, q < w.nextPid)
    (hnd : w.alive.Nodup)
    (hmem : oldCap ∈ w.alive) :
    ∃ pd : RotationPending,
      (sizeTick w size ts).2 = some pd ∧
      pd.newPath =
        stripMp3 w.recorder.currentRecordingPath ++ "_" ++ toString ts ++ ".mp3" ∧
      pd.newRec.currentProcess = some (w.nextPid + 1) ∧
      (w.nextPid + 1) ∈ (sizeTick w size ts).1.alive ∧
      oldCap ∈ (sizeTick w size ts).1.alive ∧
      (sizeTick w size ts).1.recorder.currentRecordingPath =
        w.recorder.currentRecordingPath ∧
      oldCap ∉ (rotationComplete (sizeTick w size ts).1 pd).alive ∧
      (w.nextPid + 1) ∈ (rotationComplete (sizeTick w size ts).1 pd).alive ∧
      (rotationComplete (sizeTick w size ts).1 pd).recorder.currentRecordingPath =
        pd.newPath ∧
      pd.newPath ≠ w.recorder.currentRecordingPath := by
  have hTick : sizeTick w size ts =
      ({ w with alive := w.nextPid :: (w.nextPid + 1) :: w.alive,
                nextPid := w.nextPid + 2 },
        some ⟨{ isRecording := true, currentProcess := some (w.nextPid + 1),
                monitorProcess := some w.nextPid, lastLevel := 0,
                currentRecordingPath :=
                  stripMp3 w.recorder.currentRecordingPath ++ "_" ++ toString ts ++ ".mp3" },
              stripMp3 w.recorder.currentRecordingPath ++ "_" ++ toString ts ++ ".mp3"⟩) := by
    simp [sizeTick, startRecordingRec, initialRecState, hsox, hsize]
  have hnn : w.nextPid ∉ w.alive := fun hc => absurd (hbound _ hc) (lt_irrefl _)
  have hnn1 : w.nextPid + 1 ∉ w.alive := fun hc => by
    have := hbound _ hc
    omega
  have hnd1 : (w.nextPid :: (w.nextPid + 1) :: w.alive).Nodup := by
    rw [List.nodup_cons, List.nodup_cons]
    refine ⟨?_, hnn1, hnd⟩
    intro hc
    rcases List.mem_cons.mp hc with h | h
    · omega
    · exact hnn h
  have hRC : rotationComplete
      { w with alive := w.nextPid :: (w.nextPid + 1) :: w.alive,
               nextPid := w.nextPid + 2 }
      ⟨{ isRecording := true, currentProcess := some (w.nextPid + 1),
         monitorProcess := some w.nextPid, lastLevel := 0,
         currentRecordingPath :=
           stripMp3 w.recorder.currentRecordingPath ++ "_" ++ toString ts ++ ".mp3" },
       stripMp3 w.recorder.currentRecordingPath ++ "_" ++ toString ts ++ ".mp3"⟩ =
      { w with
        recorder := { isRecording := false, currentProcess := some (w.nextPid + 1),
                      monitorProcess := some w.nextPid, lastLevel := 0,
                      currentRecordingPath :=
                        stripMp3 w.recorder.currentRecordingPath ++ "_" ++ toString ts ++ ".mp3" },
        alive := ((w.nextPid :: (w.nextPid + 1) :: w.alive).erase oldCap).erase oldMon,
        nextPid := w.nextPid + 2 } := by
    simp [rotationComplete, stopRecordingRec, hrec, hcap, hmon]
  refine ⟨⟨{ isRecording := true, currentProcess := some (w.nextPid + 1),
             monitorProcess := some w.nextPid, lastLevel := 0,
             currentRecordingPath :=
               stripMp3 w.recorder.currentRecordingPath ++ "_" ++ toString ts ++ ".mp3" },
           stripMp3 w.recorder.currentRecordingPath ++ "_" ++ toString ts ++ ".mp3"⟩,
    ?_, rfl, rfl, ?_, ?_, ?_, ?_, ?_, ?_, ?_⟩
  · rw [hTick]
  · rw [hTick]
    simp
  · rw [hTick]
    simp [hmem]
  · rw [hTick]
  · rw [hTick, hRC]
    intro hc
    exact hnd1.not_mem_erase (List.mem_of_mem_erase hc)
  · rw [hTick, hRC]
    show w.nextPid + 1 ∈
      ((w.nextPid :: (w.nextPid + 1) :: w.alive).erase oldCap).erase oldMon
    rw [List.mem_erase_of_ne (by omega : w.nextPid + 1 ≠ oldMon),
      List.mem_erase_of_ne (by omega : w.nextPid + 1 ≠ oldCap)]
    simp
  · rw [hTick, hRC]
  · exact newSegmentPath_ne w.recorder.currentRecordingPath ts

/-- Witness for claim C3: one crossing on the sample recording world,
with a 26MB file observed at timestamp 7: the replacement capture pid 3
starts while the old capture pid 1 is still alive and the path still
reads rec-0.mp3; after the overlap timeout pid 1 is gone, pid 3 is alive
and the path reads the rotated segment rec-0_7.mp3. -/
theorem claim_C3_witness :
    ∃ pd : RotationPending,
      (sizeTick sampleWorld 27262976 7).2 = some pd ∧
      pd.newPath =
        stripMp3 sampleWorld.recorder.currentRecordingPath ++ "_" ++ toString 7 ++ ".mp3" ∧
      pd.newRec.currentProcess = some (sampleWorld.nextPid + 1) ∧
      (sampleWorld.nextPid + 1) ∈ (sizeTick sampleWorld 27262976 7).1.alive ∧
      1 ∈ (sizeTick sampleWorld 27262976 7).1.alive ∧
      (sizeTick sampleWorld 27262976 7).1.recorder.currentRecordingPath =
        sampleWorld.recorder.currentRecordingPath ∧
      1 ∉ (rotationComplete (sizeTick sampleWorld 27262976 7).1 pd).alive ∧
      (sampleWorld.nextPid + 1) ∈
        (rotationComplete (sizeTick sampleWorld 27262976 7).1 pd).alive ∧
      (rotationComplete (sizeTick sampleWorld 27262976 7).1 pd).recorder.currentRecordingPath =
        pd.newPath ∧
      pd.newPath ≠ sampleWorld.recorder.currentRecordingPath :=
  claim_C3_rotation_handoff sampleWorld 27262976 7 1 0 rfl rfl (by norm_num) rfl rfl
    (by decide) (by decide) (by decide) (by decide) (by decide)

end SummaryBuddy
